import Mathlib

/-!
# Verification of the RTMT test-management repository layer

Shallow embedding of the repository's storage layer (`src/server/storage.ts`,
schema in the shared schema module) and of the route-level activity logging
(`src/server/routes.ts`).

Modelling conventions:

* Backend-assigned integer ids and timestamps are `Nat`.  Every operation that
  calls `new Date()` (or relies on a `defaultNow()` column default) receives a
  single `now : Nat` parameter used for all timestamps it writes during that
  operation.
* The remote relational store behind `SupabaseStorage` is modelled as a record
  of tables (`SupaDB`), each table a list of typed rows plus a serial
  sequence.  Column identifiers are modelled by the row structure's field
  names; the embedding assumes each filter/payload key used by the adapter
  resolves to its table column.
* PostgREST semantics used by the adapter: `.single()` fails unless exactly
  one row is returned (`singleRow`); `.update`/`.delete` with a filter that
  matches zero rows succeed without error; `.insert` appends rows with
  server-assigned serial ids and `defaultNow()` timestamps.
* The schema declares foreign keys referencing `test_cases.id` from
  `test_steps`, `test_versions`, `test_case_folders` and `test_run_results`.
  The embedding enforces them where a claim depends on it: on deleting a
  `test_cases` row (Postgres rejects the delete while referencing rows
  remain).  Inserts are modelled as foreign-key-valid.
* I/O failure of the remote store is modelled only where a claim is about a
  failure path: `SupabaseStorage.logActivity` takes a `fault` flag and
  returns `Except`, mirroring the fact that the source rethrows its insert
  error while all callers invoke it without awaiting the returned promise.
* `MemStorage`'s JS `Map`s are association lists preserving insertion order
  (`listSet` replaces in place or appends, as `Map.set` does); JS `Set`s of
  test-case ids are duplicate-free `List Nat` with add-if-absent.
-/

/-- PostgREST `.single()`: succeeds only when the filtered result is exactly
one row. -/
def singleRow : List α → Option α
  | [x] => some x
  | _ => none

/-- JS `Map.get`, over an insertion-ordered association list. -/
def mapGet (m : List (Nat × α)) (k : Nat) : Option α :=
  (m.find? (fun p => p.1 == k)).map (fun p => p.2)

/-- JS `Map.set`: replaces the value in place if the key is present,
otherwise appends the new entry. -/
def listSet (m : List (Nat × α)) (k : Nat) (v : α) : List (Nat × α) :=
  match m with
  | [] => [(k, v)]
  | p :: rest => if p.1 == k then (k, v) :: rest else p :: listSet rest k v

/-- Row of the `users` table (shared schema `users`). -/
structure User where
  id : Nat
  username : String
  email : String
  password : String
  full_name : String
  avatar : Option String
  role : String
  last_login : Option Nat
  is_active : Bool
deriving Repr, DecidableEq

/-- Row of the `folders` table. -/
structure Folder where
  id : Nat
  name : String
  description : Option String
  created_by : Option Nat
  created_at : Nat
deriving Repr, DecidableEq

/-- Row of the `test_cases` table.  `version` has DB default 1. -/
structure TestCase where
  id : Nat
  title : String
  description : Option String
  status : String
  priority : String
  type : String
  assigned_to : Option Nat
  created_by : Nat
  created_at : Nat
  updated_at : Nat
  last_run : Option Nat
  expected_result : Option String
  version : Nat
deriving Repr, DecidableEq

/-- Row of the `test_steps` table. -/
structure TestStep where
  id : Nat
  test_case_id : Nat
  step_number : Nat
  description : String
  expected_result : Option String
deriving Repr, DecidableEq

/-- Row of the `test_versions` table; `data` is the opaque jsonb snapshot
blob. -/
structure TestVersion where
  id : Nat
  test_case_id : Nat
  version : Nat
  data : String
  created_by : Nat
  created_at : Nat
  change_comment : Option String
deriving Repr, DecidableEq

/-- Row of the `test_case_folders` association table. -/
structure TestCaseFolderRow where
  id : Nat
  test_case_id : Nat
  folderId : Nat
deriving Repr, DecidableEq

/-- Row of the `test_runs` table. -/
structure TestRun where
  id : Nat
  name : String
  description : Option String
  status : String
  started_at : Nat
  complete_at : Option Nat
  executed_by : Nat
  duration : Option Nat
deriving Repr, DecidableEq

/-- Row of the `test_run_results` table. -/
structure TestRunResult where
  id : Nat
  runId : Nat
  test_case_id : Nat
  status : String
  notes : Option String
  executed_by : Nat
  executed_at : Nat
  duration : Option Nat
deriving Repr, DecidableEq

/-- Row of the `activity_logs` table. -/
structure ActivityLog where
  id : Nat
  user_id : Nat
  action : String
  entity_type : String
  entity_id : Nat
  details : Option String
  created_at : Nat
deriving Repr, DecidableEq

/-- `InsertUser` (insert schema: `users` minus `id`, `last_login`). -/
structure InsertUser where
  username : String
  email : String
  password : String
  full_name : String
  avatar : Option String := none
  role : String
  is_active : Bool
deriving Repr, DecidableEq

/-- `InsertFolder` (insert schema: `folders` minus `id`, `created_at`). -/
structure InsertFolder where
  name : String
  description : Option String := none
  created_by : Option Nat := none
deriving Repr, DecidableEq

/-- A step as supplied by a caller: `InsertTestStep` with the parent id
omitted (both adapters overwrite `test_case_id` themselves). -/
structure StepInput where
  step_number : Nat
  description : String
  expected_result : Option String := none
deriving Repr, DecidableEq

/-- `TestCaseWithSteps`: `InsertTestCase` (insert schema omits `id`,
`created_at`, `updated_at`, `last_run` and `version`) extended with a steps
array. -/
structure TestCaseWithSteps where
  title : String
  description : Option String := none
  status : String
  priority : String
  type : String
  assigned_to : Option Nat := none
  created_by : Nat
  expected_result : Option String := none
  steps : List StepInput
deriving Repr, DecidableEq

/-- `Partial<InsertTestCase>`: every updatable column optional.  Since the
insert schema omits `version`, a patch can never touch the `version`
column. -/
structure TestCasePatch where
  title : Option String := none
  description : Option (Option String) := none
  status : Option String := none
  priority : Option String := none
  type : Option String := none
  assigned_to : Option (Option Nat) := none
  created_by : Option Nat := none
  expected_result : Option (Option String) := none
deriving Repr, DecidableEq

/-- `InsertTestRunResult` (insert schema omits `id`, `executed_at`,
`duration`). -/
structure InsertTestRunResult where
  runId : Nat
  test_case_id : Nat
  status : String
  notes : Option String := none
  executed_by : Nat
deriving Repr, DecidableEq

/-- `InsertActivityLog` (insert schema omits `id`, `created_at`). -/
structure InsertActivityLog where
  user_id : Nat
  action : String
  entity_type : String
  entity_id : Nat
  details : Option String := none
deriving Repr, DecidableEq

/-- The remote relational store seen by `SupabaseStorage`: one list of rows
per table the claims touch, plus the serial sequences assigning ids. -/
structure SupaDB where
  users : List User := []
  folders : List Folder := []
  test_cases : List TestCase := []
  test_steps : List TestStep := []
  test_versions : List TestVersion := []
  test_case_folders : List TestCaseFolderRow := []
  test_runs : List TestRun := []
  test_run_results : List TestRunResult := []
  activity_logs : List ActivityLog := []
  user_seq : Nat := 1
  folder_seq : Nat := 1
  case_seq : Nat := 1
  step_seq : Nat := 1
  version_seq : Nat := 1
  case_folder_seq : Nat := 1
  run_seq : Nat := 1
  result_seq : Nat := 1
  log_seq : Nat := 1
deriving Repr, DecidableEq

/-- The empty remote store. -/
def sbEmpty : SupaDB := {}

/-- Applies a `Partial<InsertTestCase>` patch onto a `test_cases` row:
present keys overwrite, absent keys are untouched.  `version`,
`created_at`, `updated_at` and `last_run` are not in the patch type, so an
update can never change them. -/
def applyPatch (r : TestCase) (p : TestCasePatch) : TestCase :=
  { r with
    title := p.title.getD r.title
    description := p.description.getD r.description
    status := p.status.getD r.status
    priority := p.priority.getD r.priority
    type := p.type.getD r.type
    assigned_to := p.assigned_to.getD r.assigned_to
    created_by := p.created_by.getD r.created_by
    expected_result := p.expected_result.getD r.expected_result }

/-- The `test_steps` rows produced by inserting the supplied steps for test
case `tcId`, ids assigned from serial value `seq0`.  Mirrors
`steps.map((step) => ({ ...step, test_case_id: id }))` followed by the
insert: `step_number` is taken from the input unchanged. -/
def stepRows (tcId : Nat) (seq0 : Nat) : List StepInput → List TestStep
  | [] => []
  | s :: rest =>
      { id := seq0, test_case_id := tcId, step_number := s.step_number
        description := s.description, expected_result := s.expected_result }
        :: stepRows tcId (seq0 + 1) rest

namespace SupabaseStorage

/-- `SupabaseStorage.getTestCase`: select where `id`, `.single()`. -/
def getTestCase (db : SupaDB) (id : Nat) : Option TestCase :=
  singleRow (db.test_cases.filter (fun r => r.id == id))

/-- `SupabaseStorage.createTestCase`: destructures the steps off, inserts
the `test_cases` row (DB defaults: `version` 1, `created_at`/`updated_at`
now, `last_run` null), then — only when `steps && steps.length > 0` —
inserts the steps with `test_case_id` set to the new id. -/
def createTestCase (db : SupaDB) (t : TestCaseWithSteps) (now : Nat) :
    TestCase × SupaDB :=
  let row : TestCase :=
    { id := db.case_seq, title := t.title, description := t.description
      status := t.status, priority := t.priority, type := t.type
      assigned_to := t.assigned_to, created_by := t.created_by
      created_at := now, updated_at := now, last_run := none
      expected_result := t.expected_result, version := 1 }
  let newSteps := if 0 < t.steps.length then stepRows row.id db.step_seq t.steps else []
  (row,
   { db with
     test_cases := db.test_cases ++ [row]
     case_seq := db.case_seq + 1
     test_steps := db.test_steps ++ newSteps
     step_seq := db.step_seq + newSteps.length })

/-- `SupabaseStorage.updateTestCase(id, data, steps?)`: updates the
`test_cases` row where `id` (returning `undefined` when `.single()` finds no
row — the table's primary key makes more than one match impossible, so the
embedding looks the row up with `find?`); then, only when the `steps`
argument is present (in the source `if (steps)` — an empty array is truthy),
deletes every `test_steps` row of the case and inserts the supplied steps.
Note: no `version` bump and no `test_versions` write happen here. -/
def updateTestCase (db : SupaDB) (id : Nat) (patch : TestCasePatch)
    (steps : Option (List StepInput)) : Option TestCase × SupaDB :=
  match db.test_cases.find? (fun r => r.id == id) with
  | none => (none, db)
  | some r0 =>
    let row := applyPatch r0 patch
    let db1 := { db with
      test_cases := db.test_cases.map (fun r => if r.id == id then applyPatch r patch else r) }
    match steps with
    | none => (some row, db1)
    | some l =>
      (some row,
       { db1 with
         test_steps := db1.test_steps.filter (fun s => !(s.test_case_id == id))
           ++ stepRows id db1.step_seq l
         step_seq := db1.step_seq + l.length })

/-- `SupabaseStorage.deleteTestCase`: deletes the `test_steps` rows of the
case first ("foreign key constraint"), then deletes the `test_cases` row.
The schema also declares foreign keys to `test_cases.id` from
`test_versions`, `test_case_folders` and `test_run_results`, which this
method never clears: the row delete errors (and the method returns `false`)
whenever such a referencing row remains. -/
def deleteTestCase (db : SupaDB) (id : Nat) : Bool × SupaDB :=
  let db1 := { db with test_steps := db.test_steps.filter (fun s => !(s.test_case_id == id)) }
  let referenced :=
    db1.test_steps.any (fun s => s.test_case_id == id)
    || db1.test_versions.any (fun v => v.test_case_id == id)
    || db1.test_case_folders.any (fun a => a.test_case_id == id)
    || db1.test_run_results.any (fun r => r.test_case_id == id)
  if referenced then (false, db1)
  else (true, { db1 with test_cases := db1.test_cases.filter (fun r => !(r.id == id)) })

/-- The snapshot row `SupabaseStorage.revertToVersion` feeds to its update:
the element of the case's (unordered, as-fetched) snapshot list at raw
position `version - 1` — a positional index, not a lookup of the stored
`version` column (`versions[version - 1]` in the source, with the comment
"assuming the version number starts from 1").  A requested version of 0
indexes `versions[-1]`, which is `undefined` in JS. -/
def revertVersionPayload (db : SupaDB) (test_case_id version : Nat) :
    Option TestVersion :=
  if version == 0 then none
  else (db.test_versions.filter (fun v => v.test_case_id == test_case_id)).get? (version - 1)

/-- The effect of updating a `test_cases` row with a raw `test_versions` row
as payload (`update(versions[version - 1])` in the source): the payload's
columns that `test_cases` shares (`id`, `version`, `created_by`,
`created_at`) are written; none of the content columns (`title`,
`description`, `status`, …) are touched, because the payload is the
snapshot ROW, not its `data` blob.  (The payload's remaining columns —
`test_case_id`, `data`, `change_comment` — do not exist on `test_cases`; a
strict PostgREST model would reject the whole update because of them, which
would only make every revert fail.  The embedding applies the shared columns,
the reading most charitable to the source.) -/
def applyVersionRow (r : TestCase) (v : TestVersion) : TestCase :=
  { r with id := v.id, version := v.version
           created_by := v.created_by, created_at := v.created_at }

/-- `SupabaseStorage.revertToVersion`: fetches the case's snapshot rows,
returns `false` when there are none, otherwise updates the live row with the
positionally selected raw snapshot row and returns `true`.  It never reads
`test_cases` to check that the case exists, and never compares the stored
`version` column with the requested version.  (An out-of-range position gives
`update(undefined)`, which the client rejects: modelled as the `false`
branch.) -/
def revertToVersion (db : SupaDB) (test_case_id version : Nat) : Bool × SupaDB :=
  let versions := db.test_versions.filter (fun v => v.test_case_id == test_case_id)
  if versions.length == 0 then (false, db)
  else
    match revertVersionPayload db test_case_id version with
    | none => (false, db)
    | some payload =>
      (true,
       { db with test_cases := (db.test_cases.map
           (fun r => if r.id == test_case_id then applyVersionRow r payload else r)) })

/-- `SupabaseStorage.removeTestCaseFromFolder`: a filtered delete on
`test_case_folders`.  Deleting zero rows is not an error in PostgREST, so
the method returns `true` whether or not the association existed. -/
def removeTestCaseFromFolder (db : SupaDB) (test_case_id folderId : Nat) :
    Bool × SupaDB :=
  (true,
   { db with test_case_folders := (db.test_case_folders.filter
       (fun a => !(a.test_case_id == test_case_id && a.folderId == folderId))) })

/-- `SupabaseStorage.createTestRunResult`: inserts the result row
(`executed_at` from the DB default), then calls `updateTestCaseStatus`,
which updates ONLY the `status` column of the test case — `last_run` is
never written by this adapter.  The status update has no `.single()`, so a
missing test case row is silently a no-op. -/
def createTestRunResult (db : SupaDB) (res : InsertTestRunResult) (now : Nat) :
    TestRunResult × SupaDB :=
  let row : TestRunResult :=
    { id := db.result_seq, runId := res.runId, test_case_id := res.test_case_id
      status := res.status, notes := res.notes, executed_by := res.executed_by
      executed_at := now, duration := none }
  let db1 := { db with
    test_run_results := db.test_run_results ++ [row]
    result_seq := db.result_seq + 1 }
  (row,
   { db1 with test_cases := (db1.test_cases.map
       (fun r => if r.id == res.test_case_id then { r with status := res.status } else r)) })

/-- `SupabaseStorage.logActivity`: inserts the record and RETHROWS the
insert error (`throw error` in the source).  `fault` injects the insert
failing; the `Except` result models the thrown rejection. -/
def logActivity (db : SupaDB) (log : InsertActivityLog) (now : Nat)
    (fault : Bool) : Except Unit ActivityLog × SupaDB :=
  if fault then (Except.error (), db)
  else
    let row : ActivityLog :=
      { id := db.log_seq, user_id := log.user_id, action := log.action
        entity_type := log.entity_type, entity_id := log.entity_id
        details := log.details, created_at := now }
    (Except.ok row,
     { db with activity_logs := db.activity_logs ++ [row], log_seq := db.log_seq + 1 })

end SupabaseStorage

/-- The `POST /api/testcases` handler body (`src/server/routes.ts`): creates
the test case, then logs activity inside `try { ... } catch { /* continue */ }`
— and, decisively, WITHOUT awaiting the returned promise, so a rejected
insert can never reach the handler; the 201 response with the created test
case is sent regardless of the logging outcome.  The discarded first
component of the `logActivity` result models the unawaited promise. -/
def routeCreateTestCase (db : SupaDB) (input : TestCaseWithSteps) (now : Nat)
    (logFault : Bool) : (Nat × TestCase) × SupaDB :=
  let r1 := SupabaseStorage.createTestCase db input now
  let r2 := SupabaseStorage.logActivity r1.2
    { user_id := 1, action := "create_test_case", entity_type := "test_case"
      entity_id := r1.1.id, details := some r1.1.title } now logFault
  ((201, r1.1), r2.2)

/-- `MemStorage`'s in-process state: one JS `Map` (association list) per
entity, one auto-increment counter per entity type, all counters starting
at 1.  The counter fields keep the source's names. -/
structure MemState where
  users : List (Nat × User) := []
  folders : List (Nat × Folder) := []
  testCases : List (Nat × TestCase) := []
  testSteps : List (Nat × List TestStep) := []
  testVersions : List (Nat × List TestVersion) := []
  testCaseFolders : List (Nat × List Nat) := []
  testRuns : List (Nat × TestRun) := []
  testRunResults : List (Nat × List TestRunResult) := []
  activityLogs : List ActivityLog := []
  userId : Nat := 1
  folderId : Nat := 1
  test_case_id : Nat := 1
  testStepId : Nat := 1
  testVersionId : Nat := 1
  testCaseFolderId : Nat := 1
  testRunId : Nat := 1
  test_run_result_id : Nat := 1
  activityLogId : Nat := 1
deriving Repr, DecidableEq

/-- A `MemState` with empty maps and all counters 1 — the state of the
`MemStorage` constructor before its seeding statements run. -/
def memEmpty : MemState := {}

/-- The `test_steps` rows `MemStorage.createTestCase` builds: unlike the
persistent adapter it renumbers `step_number` to `index + 1` and defaults
`expected_result` with `?? null`. -/
def memStepRows (tcId : Nat) (seq0 idx0 : Nat) : List StepInput → List TestStep
  | [] => []
  | s :: rest =>
      { id := seq0, test_case_id := tcId, step_number := idx0 + 1
        description := s.description, expected_result := s.expected_result }
        :: memStepRows tcId (seq0 + 1) (idx0 + 1) rest

namespace MemStorage

/-- `MemStorage.createUser`. -/
def createUser (st : MemState) (u : InsertUser) : User × MemState :=
  let id := st.userId
  let newUser : User :=
    { id := id, username := u.username, email := u.email, password := u.password
      full_name := u.full_name, avatar := u.avatar, role := u.role
      last_login := none, is_active := u.is_active }
  (newUser, { st with users := listSet st.users id newUser, userId := id + 1 })

/-- `MemStorage.createFolder`. -/
def createFolder (st : MemState) (f : InsertFolder) (now : Nat) : Folder × MemState :=
  let id := st.folderId
  let newFolder : Folder :=
    { id := id, name := f.name, description := f.description
      created_by := f.created_by, created_at := now }
  (newFolder, { st with folders := listSet st.folders id newFolder, folderId := id + 1 })

/-- `MemStorage.createTestCase`: assigns the next id, stores the row with
`version` 1 and `last_run` null, and — when `steps?.length` is truthy —
stores the renumbered steps.  The step-id counter advances once per stored
step. -/
def createTestCase (st : MemState) (t : TestCaseWithSteps) (now : Nat) :
    TestCase × MemState :=
  let id := st.test_case_id
  let newTestCase : TestCase :=
    { id := id, title := t.title, description := t.description
      status := t.status, priority := t.priority, type := t.type
      assigned_to := t.assigned_to, created_by := t.created_by
      created_at := now, updated_at := now, last_run := none
      expected_result := t.expected_result, version := 1 }
  (newTestCase,
   { st with
     testCases := listSet st.testCases id newTestCase
     test_case_id := id + 1
     testSteps :=
       if 0 < t.steps.length
       then listSet st.testSteps id (memStepRows id st.testStepId 0 t.steps)
       else st.testSteps
     testStepId := st.testStepId + t.steps.length })

/-- `MemStorage.assignTestCaseToFolder`: ensures the folder's set exists,
and adds the test case only when it is not already a member; EITHER branch
mints a fresh association record `{ id: this.testCaseFolderId++, ... }`, so
even the early "already assigned" return carries a new id. -/
def assignTestCaseToFolder (st : MemState) (test_case_id folderId : Nat) :
    TestCaseFolderRow × MemState :=
  let folderSet := (mapGet st.testCaseFolders folderId).getD []
  let row : TestCaseFolderRow :=
    { id := st.testCaseFolderId, test_case_id := test_case_id, folderId := folderId }
  let newSet := if folderSet.contains test_case_id then folderSet
                else folderSet ++ [test_case_id]
  (row,
   { st with
     testCaseFolders := listSet st.testCaseFolders folderId newSet
     testCaseFolderId := st.testCaseFolderId + 1 })

/-- `MemStorage.removeTestCaseFromFolder`: `false` when the folder has no
set; otherwise JS `Set.delete` — removes the member and returns whether it
was present. -/
def removeTestCaseFromFolder (st : MemState) (test_case_id folderId : Nat) :
    Bool × MemState :=
  match mapGet st.testCaseFolders folderId with
  | none => (false, st)
  | some folderSet =>
    (folderSet.contains test_case_id,
     { st with testCaseFolders := (listSet st.testCaseFolders folderId
         (folderSet.filter (fun x => !(x == test_case_id)))) })

/-- `MemStorage.createTestRunResult`: appends the result to the run's list,
then — when the test case exists — overwrites its `status` AND sets
`last_run` to `new Date()` (the same operation timestamp as the result's
`executed_at`). -/
def createTestRunResult (st : MemState) (res : InsertTestRunResult) (now : Nat) :
    TestRunResult × MemState :=
  let id := st.test_run_result_id
  let newResult : TestRunResult :=
    { id := id, runId := res.runId, test_case_id := res.test_case_id
      status := res.status, notes := res.notes, executed_by := res.executed_by
      executed_at := now, duration := none }
  let prev := (mapGet st.testRunResults res.runId).getD []
  let st1 := { st with
    testRunResults := listSet st.testRunResults res.runId (prev ++ [newResult])
    test_run_result_id := id + 1 }
  match mapGet st1.testCases res.test_case_id with
  | some tc =>
    (newResult,
     { st1 with testCases := (listSet st1.testCases res.test_case_id
         { tc with status := res.status, last_run := some now }) })
  | none => (newResult, st1)

/-- `MemStorage.logActivity`: a pure in-process append — it cannot fail. -/
def logActivity (st : MemState) (log : InsertActivityLog) (now : Nat) :
    ActivityLog × MemState :=
  let id := st.activityLogId
  let row : ActivityLog :=
    { id := id, user_id := log.user_id, action := log.action
      entity_type := log.entity_type, entity_id := log.entity_id
      details := log.details, created_at := now }
  (row, { st with activityLogs := st.activityLogs ++ [row], activityLogId := id + 1 })

end MemStorage

/-- The `MemStorage` constructor: after initialising the empty maps it seeds
one system-owner user, three folders, and three test cases (3, 5 and 5
steps) with folder assignments (1,1), (2,1) and (3,2).  The seeding calls
are fire-and-forget `async` calls whose bodies contain no `await`, so they
run to completion synchronously in order.  All seed timestamps are the
construction instant, modelled as 0. -/
def memInit : MemState :=
  let s1 := (MemStorage.createUser memEmpty
    { username := "admin", email := "admin@example.com", password := "password"
      full_name := "System Admin", role := "system_owner", is_active := true }).2
  let s2 := (MemStorage.createFolder s1
    { name := "Regression Tests", description := some "Tests for regression testing"
      created_by := some 1 } 0).2
  let s3 := (MemStorage.createFolder s2
    { name := "Smoke Tests", description := some "Quick smoke tests"
      created_by := some 1 } 0).2
  let s4 := (MemStorage.createFolder s3
    { name := "Feature Tests", description := some "Feature specific tests"
      created_by := some 1 } 0).2
  let s5 := (MemStorage.createTestCase s4
    { title := "User Login Verification"
      description := some "Verify that users can login with valid credentials"
      status := "passed", priority := "high", type := "functional"
      assigned_to := some 1, created_by := 1
      expected_result := some "User should be logged in successfully"
      steps :=
        [ { step_number := 1, description := "Navigate to login page"
            expected_result := some "Login page is displayed" }
        , { step_number := 2, description := "Enter valid username and password"
            expected_result := some "Credentials are accepted" }
        , { step_number := 3, description := "Click on Login button"
            expected_result := some "User is redirected to dashboard" } ] } 0).2
  let s6 := (MemStorage.assignTestCaseToFolder s5 1 1).2
  let s7 := (MemStorage.createTestCase s6
    { title := "Password Reset Flow"
      description := some "Test the complete password reset workflow"
      status := "failed", priority := "critical", type := "functional"
      assigned_to := some 1, created_by := 1
      expected_result := some "Password reset email should be sent and new password should work"
      steps :=
        [ { step_number := 1, description := "Navigate to login page"
            expected_result := some "Login page is displayed" }
        , { step_number := 2, description := "Click on Forgot Password link"
            expected_result := some "Reset page is displayed" }
        , { step_number := 3, description := "Enter valid email address"
            expected_result := some "Success message is shown" }
        , { step_number := 4, description := "Check email and click reset link"
            expected_result := some "Reset form is displayed" }
        , { step_number := 5, description := "Enter new password and confirm"
            expected_result := some "Password is updated" } ] } 0).2
  let s8 := (MemStorage.assignTestCaseToFolder s7 2 1).2
  let s9 := (MemStorage.createTestCase s8
    { title := "User Registration Form Validation"
      description := some "Validate all form fields during user registration"
      status := "pending", priority := "medium", type := "functional"
      assigned_to := some 1, created_by := 1
      expected_result := some "Form should validate all fields correctly"
      steps :=
        [ { step_number := 1
            description := "Navigate to registration page          expected_result: Registration form is displayed"
            expected_result := none }
        , { step_number := 2, description := "Leave required fields empty and submit"
            expected_result := some "Validation errors are shown" }
        , { step_number := 3, description := "Enter invalid format for email"
            expected_result := some "Email validation error is shown" }
        , { step_number := 4, description := "Enter short password"
            expected_result := some "Password validation error is shown" }
        , { step_number := 5, description := "Enter valid details and submit"
            expected_result := some "Registration is successful" } ] } 0).2
  (MemStorage.assignTestCaseToFolder s9 3 2).2

/-- Scenario state for the version-invariant claim: one test case created on
an empty store. -/
def c1_input : TestCaseWithSteps :=
  { title := "Login", status := "pending", priority := "high", type := "functional"
    created_by := 1
    steps := [ { step_number := 1, description := "open page" }
             , { step_number := 2, description := "submit creds" } ] }

/-- Store after creating the scenario test case (id 1, version 1). -/
def c1_db1 : SupaDB := (SupabaseStorage.createTestCase sbEmpty c1_input 0).2

/-- First content update of the scenario test case. -/
def c1_upd1 : Option TestCase × SupaDB :=
  SupabaseStorage.updateTestCase c1_db1 1 { title := some "Login v2" } none

/-- Second content update of the scenario test case. -/
def c1_upd2 : Option TestCase × SupaDB :=
  SupabaseStorage.updateTestCase c1_upd1.2 1 { title := some "Login v3" } none

/-- Scenario for the revert claim: its own create-then-update-twice chain. -/
def c4_input : TestCaseWithSteps :=
  { title := "Checkout", status := "pending", priority := "medium", type := "functional"
    created_by := 1
    steps := [ { step_number := 1, description := "add item to cart" } ] }

/-- Store after creating the revert-scenario test case (id 1, version 1). -/
def c4_db1 : SupaDB := (SupabaseStorage.createTestCase sbEmpty c4_input 0).2

/-- Revert scenario: first update. -/
def c4_upd1 : Option TestCase × SupaDB :=
  SupabaseStorage.updateTestCase c4_db1 1 { title := some "Checkout v2" } none

/-- Revert scenario: second update. -/
def c4_upd2 : Option TestCase × SupaDB :=
  SupabaseStorage.updateTestCase c4_upd1.2 1 { title := some "Checkout v3" } none

/-- Revert scenario: the revert call the claim is about. -/
def c4_rev : Bool × SupaDB := SupabaseStorage.revertToVersion c4_upd2.2 1 2

/-- A live test-case row at version 3 whose two snapshots are stored with
version numbers 2 and 3. -/
def c3_live : TestCase :=
  { id := 1, title := "live title", description := some "live description"
    status := "pending", priority := "high", type := "functional"
    assigned_to := none, created_by := 1, created_at := 0, updated_at := 0
    last_run := none, expected_result := none, version := 3 }

/-- Snapshot row recorded for version 2. -/
def c3_v2 : TestVersion :=
  { id := 10, test_case_id := 1, version := 2, data := "snapshot of the version-2 state"
    created_by := 1, created_at := 1, change_comment := none }

/-- Snapshot row recorded for version 3. -/
def c3_v3 : TestVersion :=
  { id := 11, test_case_id := 1, version := 3, data := "snapshot of the version-3 state"
    created_by := 1, created_at := 2, change_comment := none }

/-- Store with the live row and its two snapshots, fetched in insertion
order. -/
def c3_db : SupaDB := { test_cases := [c3_live], test_versions := [c3_v2, c3_v3] }

/-- A store holding an orphan snapshot for test case 7 while the `test_cases`
row 7 itself does not exist (snapshots survive `deleteTestCase`, which never
clears `test_versions`). -/
def c3_orphan_db : SupaDB :=
  { test_versions :=
      [ { id := 20, test_case_id := 7, version := 1, data := "orphan snapshot"
          created_by := 1, created_at := 0, change_comment := none } ] }

/-- Test case row used by the status-propagation scenarios. -/
def c5_tc : TestCase :=
  { id := 1, title := "Login", description := none, status := "pending"
    priority := "high", type := "functional", assigned_to := none
    created_by := 1, created_at := 0, updated_at := 0, last_run := none
    expected_result := none, version := 1 }

/-- Test run row used by the status-propagation scenarios. -/
def c5_run : TestRun :=
  { id := 1, name := "Nightly", description := none, status := "in_progress"
    started_at := 1, complete_at := none, executed_by := 1, duration := none }

/-- Persistent-store state with the case and the run present. -/
def c5_db : SupaDB := { test_cases := [c5_tc], test_runs := [c5_run] }

/-- The "failed" result recorded against run 1 / test case 1. -/
def c5_res : InsertTestRunResult :=
  { runId := 1, test_case_id := 1, status := "failed", executed_by := 1 }

/-- In-memory state used by the status-propagation witness. -/
def c5w_st : MemState := { memEmpty with testCases := [(1, c5_tc)] }

/-- The three steps of the cascade-delete scenario's test case. -/
def c6_steps : List TestStep :=
  [ { id := 1, test_case_id := 1, step_number := 1, description := "s1", expected_result := none }
  , { id := 2, test_case_id := 1, step_number := 2, description := "s2", expected_result := none }
  , { id := 3, test_case_id := 1, step_number := 3, description := "s3", expected_result := none } ]

/-- Cascade-delete scenario: test case 1 with 3 steps and 2 folder
associations. -/
def c6_db : SupaDB :=
  { test_cases := [c5_tc]
    test_steps := c6_steps
    test_case_folders :=
      [ { id := 1, test_case_id := 1, folderId := 1 }
      , { id := 2, test_case_id := 1, folderId := 2 } ] }

/-- Store used by the step-replacement witness: one test case, one existing
step of another case. -/
def c8w_db : SupaDB :=
  { test_cases := [c5_tc]
    test_steps := [ { id := 9, test_case_id := 2, step_number := 1
                      description := "unrelated", expected_result := none } ]
    step_seq := 10 }

/-- `mapGet` after `listSet` at the same key yields the stored value
(JS `map.set(k, v)` followed by `map.get(k)`). -/
theorem mapGet_listSet_self {α : Type} (m : List (Nat × α)) (k : Nat) (v : α) :
    mapGet (listSet m k v) k = some v := by
  induction m with
  | nil => simp [listSet, mapGet]
  | cons p rest ih =>
    by_cases h : p.1 == k
    · simp [listSet, h, mapGet]
    · simp only [listSet, h, if_neg, Bool.false_eq_true, ite_false]
      simp only [mapGet, List.find?] at ih ⊢
      simp [h, ih]

/-- Claim C1: the claim states that after N successful content updates a
TestCase's version is N + 1 with exactly N TestVersion snapshots.  On the
code this fails: `updateTestCase` neither increments `version` (the patch
type cannot even name the column) nor writes a `test_versions` row
(`createTestVersion` has no caller), so after two successful updates the
version is still 1 and zero snapshots exist, where the claim requires
version 3 and two snapshots. -/
theorem c1_update_keeps_version_one_and_writes_no_snapshot :
    ((SupabaseStorage.createTestCase sbEmpty c1_input 0).1.version = 1) ∧
    (c1_upd1.1.isSome = true) ∧
    (c1_upd2.1.isSome = true) ∧
    ((SupabaseStorage.getTestCase c1_upd2.2 1).map (fun r => r.version) = some 1) ∧
    (c1_upd2.2.test_versions.length = 0) :=
  ⟨rfl, rfl, rfl, rfl, rfl⟩

/-- Claim C2 counterexample: the two adapters do NOT have identical
externally observable behaviour.  On the same input — removing a (test
case, folder) pair that is assigned in neither store — `MemStorage` returns
`false` while `SupabaseStorage` returns `true`. -/
theorem c2_adapters_disagree_on_remove_unassigned :
    ((MemStorage.removeTestCaseFromFolder memInit 99 99).1 = false) ∧
    ((SupabaseStorage.removeTestCaseFromFolder sbEmpty 99 99).1 = true) :=
  ⟨rfl, rfl⟩

/-- Claim C2 amended: both adapters serve the repository interface, but
their observable behaviour differs: `SupabaseStorage.removeTestCaseFromFolder`
returns `true` on EVERY input (a filtered delete of zero rows is not an
error), while `MemStorage` returns `false` for an unassigned pair — so a
test suite asserting the interface's not-found removal semantics cannot
pass against both adapters. -/
theorem c2_adapter_not_found_semantics_differ :
    (∀ (db : SupaDB) (tc f : Nat),
        (SupabaseStorage.removeTestCaseFromFolder db tc f).1 = true) ∧
    ((MemStorage.removeTestCaseFromFolder memInit 42 7).1 = false) :=
  ⟨fun _ _ _ => rfl, rfl⟩

/-- Claim C3: the claim states that `revertToVersion` selects the snapshot
whose stored version number equals the requested version, applies its
stored field data, and fails NotFound when the case or version is missing.
On the code this fails: with snapshots stored for versions 2 and 3,
requesting version 2 positionally selects (`versions[version - 1]`) the
snapshot whose stored version is 3; the update payload is the raw snapshot
row, so no content field (`title` stays "live title") is restored; and with
the live `test_cases` row absent but an orphan snapshot present the call
still returns `true` instead of a not-found failure. -/
theorem c3_revert_positional_not_exact_match :
    ((SupabaseStorage.revertVersionPayload c3_db 1 2).map (fun v => v.version) = some 3) ∧
    ((SupabaseStorage.revertToVersion c3_db 1 2).1 = true) ∧
    ((SupabaseStorage.revertToVersion c3_db 1 2).2.test_cases
       = [{ c3_live with id := 11, version := 3, created_by := 1, created_at := 2 }]) ∧
    ((SupabaseStorage.revertToVersion c3_db 1 2).2.test_cases.map (fun r => r.title)
       = ["live title"]) ∧
    ((SupabaseStorage.revertToVersion c3_orphan_db 7 1).1 = true) :=
  ⟨rfl, rfl, rfl, rfl, rfl⟩

/-- Claim C4: the claim states that after create + two updates (versions
1→2→3), `revertToVersion(tc, 2)` restores the pre-update-2 fields and
leaves the case at version 4.  On the code the premise already fails — the
two successful updates never created any snapshot and never moved the
version off 1 — so the revert finds zero snapshots, returns `false`, and
the case keeps version 1 and the second update's title. -/
theorem c4_revert_scenario_fails_with_no_history :
    (c4_upd1.1.isSome = true) ∧
    (c4_upd2.1.isSome = true) ∧
    (c4_upd2.2.test_versions = []) ∧
    (c4_rev.1 = false) ∧
    ((SupabaseStorage.getTestCase c4_rev.2 1).map (fun r => (r.version, r.title))
       = some (1, "Checkout v3")) :=
  ⟨rfl, rfl, rfl, rfl, rfl⟩

/-- Claim C5 counterexample: on the persistent adapter,
`createTestRunResult` records the result (executed at time 5) and
propagates the status, but the test case's `last_run` stays `none` — not
the result's execution timestamp, as the claim requires of BOTH
adapters. -/
theorem c5_supabase_does_not_set_last_run :
    ((SupabaseStorage.createTestRunResult c5_db c5_res 5).1.executed_at = 5) ∧
    ((SupabaseStorage.getTestCase
        (SupabaseStorage.createTestRunResult c5_db c5_res 5).2 1).map (fun r => r.status)
       = some "failed") ∧
    ((SupabaseStorage.getTestCase
        (SupabaseStorage.createTestRunResult c5_db c5_res 5).2 1).map (fun r => r.last_run)
       = some none) :=
  ⟨rfl, rfl, rfl⟩

/-- Claim C5 amended: after `createTestRunResult`, the test case's `status`
equals the recorded result's status on both adapters; `MemStorage`
additionally sets `last_run` to the operation timestamp (equal to the
result's `executed_at`), while `SupabaseStorage` overwrites only `status`
and leaves `last_run` (and every other column) unchanged. -/
theorem c5_status_propagation_amended (st : MemState) (db : SupaDB)
    (res : InsertTestRunResult) (now : Nat) (tcM : TestCase)
    (hM : mapGet st.testCases res.test_case_id = some tcM) :
    ((MemStorage.createTestRunResult st res now).2.testCases
       = listSet st.testCases res.test_case_id
           { tcM with status := res.status, last_run := some now }) ∧
    ((MemStorage.createTestRunResult st res now).1.executed_at = now) ∧
    ((SupabaseStorage.createTestRunResult db res now).2.test_cases
       = db.test_cases.map
           (fun r => if r.id == res.test_case_id then { r with status := res.status } else r)) ∧
    ((SupabaseStorage.createTestRunResult db res now).1.executed_at = now) := by
  refine ⟨?_, ?_, rfl, rfl⟩ <;>
    unfold MemStorage.createTestRunResult <;> simp [hM]

/-- Concrete instance of the amended status-propagation theorem: recording
a "failed" result at time 7 against test case 1 in both stores. -/
theorem c5_status_propagation_amended_witness :
    ((MemStorage.createTestRunResult c5w_st c5_res 7).2.testCases
       = listSet c5w_st.testCases 1 { c5_tc with status := "failed", last_run := some 7 }) ∧
    ((MemStorage.createTestRunResult c5w_st c5_res 7).1.executed_at = 7) ∧
    ((SupabaseStorage.createTestRunResult c5_db c5_res 7).2.test_cases
       = c5_db.test_cases.map
           (fun r => if r.id == 1 then { r with status := "failed" } else r)) ∧
    ((SupabaseStorage.createTestRunResult c5_db c5_res 7).1.executed_at = 7) :=
  c5_status_propagation_amended c5w_st c5_db c5_res 7 c5_tc rfl

/-- Claim C6: the claim states that `deleteTestCase` removes the steps, the
folder associations and the case row, after which the case is not found.
On the code this fails: the method deletes only `test_steps` and then the
`test_cases` row, never touching `test_case_folders`; with two folder
associations present, the row delete is rejected by the association
table's foreign key, so the call returns `false`, the case and both
associations survive, and `getTestCase` still finds the case — while the
three steps have already been deleted. -/
theorem c6_delete_leaves_folder_associations :
    ((SupabaseStorage.deleteTestCase c6_db 1).1 = false) ∧
    ((SupabaseStorage.deleteTestCase c6_db 1).2.test_cases = [c5_tc]) ∧
    ((SupabaseStorage.deleteTestCase c6_db 1).2.test_case_folders.length = 2) ∧
    ((SupabaseStorage.deleteTestCase c6_db 1).2.test_steps = []) ∧
    (SupabaseStorage.getTestCase (SupabaseStorage.deleteTestCase c6_db 1).2 1 = some c5_tc) :=
  ⟨rfl, rfl, rfl, rfl, rfl⟩

/-- Claim C7 counterexample: `removeTestCaseFromFolder` on a pair that is
not assigned returns `true` on the persistent adapter (deleting zero rows
is a success in PostgREST), not `false` as the claim states. -/
theorem c7_supabase_remove_unassigned_returns_true :
    (SupabaseStorage.removeTestCaseFromFolder sbEmpty 1 1).1 = true :=
  rfl

/-- Claim C7 amended: on `MemStorage`, assigning (tc, f) twice leaves
exactly one membership of tc in folder f, and each call — including the
second, "already assigned" one — returns a freshly minted association
record with the same pair and a new id (no error, no duplicate membership);
`removeTestCaseFromFolder` on an unassigned pair returns `false` there.  On
`SupabaseStorage`, `removeTestCaseFromFolder` returns `true` even for an
unassigned pair. -/
theorem c7_folder_idempotence_amended (st st2 : MemState) (db : SupaDB) (tc f : Nat)
    (h1 : ((mapGet st.testCaseFolders f).getD []).count tc ≤ 1)
    (h2 : ((mapGet st2.testCaseFolders f).getD []).contains tc = false) :
    (((mapGet (MemStorage.assignTestCaseToFolder
        (MemStorage.assignTestCaseToFolder st tc f).2 tc f).2.testCaseFolders f).getD
          []).count tc = 1) ∧
    ((MemStorage.assignTestCaseToFolder st tc f).1
       = { id := st.testCaseFolderId, test_case_id := tc, folderId := f }) ∧
    ((MemStorage.assignTestCaseToFolder
        (MemStorage.assignTestCaseToFolder st tc f).2 tc f).1
       = { id := st.testCaseFolderId + 1, test_case_id := tc, folderId := f }) ∧
    ((MemStorage.removeTestCaseFromFolder st2 tc f).1 = false) ∧
    ((SupabaseStorage.removeTestCaseFromFolder db tc f).1 = true) := by
  refine ⟨?_, rfl, rfl, ?_, rfl⟩
  · unfold MemStorage.assignTestCaseToFolder
    simp only [mapGet_listSet_self, Option.getD_some]
    by_cases hc : ((mapGet st.testCaseFolders f).getD []).contains tc
    · simp only [hc, if_true]
      have hmem : tc ∈ (mapGet st.testCaseFolders f).getD [] := by
        simpa [List.contains] using hc
      have := List.count_pos_iff.mpr hmem
      omega
    · rw [if_neg hc]
      have hnotmem : tc ∉ (mapGet st.testCaseFolders f).getD [] := by
        simpa [List.contains] using hc
      have hc2 : (((mapGet st.testCaseFolders f).getD []) ++ [tc]).contains tc = true := by
        simp [List.contains]
      rw [if_pos hc2, List.count_append, List.count_singleton_self,
        List.count_eq_zero.mpr hnotmem]
  · unfold MemStorage.removeTestCaseFromFolder
    cases hm : mapGet st2.testCaseFolders f with
    | none => rfl
    | some s =>
      simp [hm] at h2 ⊢
      exact h2

/-- Concrete instance of the amended folder-idempotence theorem: pair
(1, 1) on empty stores. -/
theorem c7_folder_idempotence_amended_witness :
    (((mapGet (MemStorage.assignTestCaseToFolder
        (MemStorage.assignTestCaseToFolder memEmpty 1 1).2 1 1).2.testCaseFolders 1).getD
          []).count 1 = 1) ∧
    ((MemStorage.assignTestCaseToFolder memEmpty 1 1).1
       = { id := 1, test_case_id := 1, folderId := 1 }) ∧
    ((MemStorage.assignTestCaseToFolder
        (MemStorage.assignTestCaseToFolder memEmpty 1 1).2 1 1).1
       = { id := 2, test_case_id := 1, folderId := 1 }) ∧
    ((MemStorage.removeTestCaseFromFolder memEmpty 1 1).1 = false) ∧
    ((SupabaseStorage.removeTestCaseFromFolder sbEmpty 1 1).1 = true) :=
  c7_folder_idempotence_amended memEmpty memEmpty sbEmpty 1 1 (by decide) (by decide)

/-- Claim C8: `updateTestCase` treats its steps argument as optional — with
the argument omitted the update succeeds and the `test_steps` table is left
untouched; with the argument present (including the empty array, which is
truthy in the source's `if (steps)`) every step of the case is deleted and
exactly the supplied steps are inserted (delete-all-then-insert-all), steps
of other cases being untouched. -/
theorem c8_update_steps_optional_full_replacement (db : SupaDB) (id : Nat)
    (patch : TestCasePatch) (l : List StepInput)
    (h : (db.test_cases.find? (fun r => r.id == id)).isSome = true) :
    ((SupabaseStorage.updateTestCase db id patch none).1.isSome = true) ∧
    ((SupabaseStorage.updateTestCase db id patch none).2.test_steps = db.test_steps) ∧
    ((SupabaseStorage.updateTestCase db id patch (some l)).1.isSome = true) ∧
    ((SupabaseStorage.updateTestCase db id patch (some l)).2.test_steps
       = db.test_steps.filter (fun s => !(s.test_case_id == id))
           ++ stepRows id db.step_seq l) ∧
    ((SupabaseStorage.updateTestCase db id patch (some ([] : List StepInput))).2.test_steps
       = db.test_steps.filter (fun s => !(s.test_case_id == id))) := by
  obtain ⟨r0, hr⟩ := Option.isSome_iff_exists.mp h
  unfold SupabaseStorage.updateTestCase
  simp [hr, stepRows]

/-- Concrete instance of the step-replacement theorem: updating test case 1
of a store that also holds a step of test case 2. -/
theorem c8_update_steps_optional_full_replacement_witness :
    ((SupabaseStorage.updateTestCase c8w_db 1 { status := some "blocked" } none).1.isSome
       = true) ∧
    ((SupabaseStorage.updateTestCase c8w_db 1 { status := some "blocked" } none).2.test_steps
       = c8w_db.test_steps) ∧
    ((SupabaseStorage.updateTestCase c8w_db 1 { status := some "blocked" }
        (some [ { step_number := 1, description := "only step" } ])).1.isSome = true) ∧
    ((SupabaseStorage.updateTestCase c8w_db 1 { status := some "blocked" }
        (some [ { step_number := 1, description := "only step" } ])).2.test_steps
       = c8w_db.test_steps.filter (fun s => !(s.test_case_id == 1))
           ++ stepRows 1 c8w_db.step_seq [ { step_number := 1, description := "only step" } ]) ∧
    ((SupabaseStorage.updateTestCase c8w_db 1 { status := some "blocked" }
        (some ([] : List StepInput))).2.test_steps
       = c8w_db.test_steps.filter (fun s => !(s.test_case_id == 1))) :=
  c8_update_steps_optional_full_replacement c8w_db 1 { status := some "blocked" }
    [ { step_number := 1, description := "only step" } ] (by decide)

/-- Claim C9: on the create-test-case route, a failing activity-log insert
never aborts or fails the business operation.  For every store, input and
fault outcome, the handler responds 201 with the created test case; on
success the log record (and nothing else) is appended, on failure the
activity log is unchanged — the rejection is invisible to the handler
because the `logActivity` promise is never awaited. -/
theorem c9_log_failure_never_aborts_create (db : SupaDB)
    (input : TestCaseWithSteps) (now : Nat) :
    ((routeCreateTestCase db input now true).1
       = (201, (SupabaseStorage.createTestCase db input now).1)) ∧
    ((routeCreateTestCase db input now false).1
       = (201, (SupabaseStorage.createTestCase db input now).1)) ∧
    ((routeCreateTestCase db input now false).2.activity_logs
       = db.activity_logs ++
         [ { id := db.log_seq, user_id := 1, action := "create_test_case"
             entity_type := "test_case", entity_id := db.case_seq
             details := some input.title, created_at := now } ]) ∧
    ((routeCreateTestCase db input now true).2.activity_logs = db.activity_logs) :=
  ⟨rfl, rfl, rfl, rfl⟩

/-- Claim C10: a freshly constructed `MemStorage` is seeded — one
system-owner user with id 1, three folders (ids 1–3), three test cases (ids
1–3, each at version 1) with 3, 5 and 5 steps, folder memberships
{1, 2} in folder 1 and {3} in folder 2 — and the per-entity counters of a
new instance start past the seeded ids, so listing users, folders or test
cases on a fresh instance is non-empty. -/
theorem c10_memstorage_constructor_seeds :
    (memInit.users.map (fun p => p.1) = [1]) ∧
    ((mapGet memInit.users 1).map (fun u => (u.username, u.role))
       = some ("admin", "system_owner")) ∧
    (memInit.folders.map (fun p => p.1) = [1, 2, 3]) ∧
    (memInit.testCases.map (fun p => p.1) = [1, 2, 3]) ∧
    (memInit.testCases.map (fun p => p.2.version) = [1, 1, 1]) ∧
    ((mapGet memInit.testSteps 1).map List.length = some 3) ∧
    ((mapGet memInit.testSteps 2).map List.length = some 5) ∧
    ((mapGet memInit.testSteps 3).map List.length = some 5) ∧
    ((mapGet memInit.testCaseFolders 1).getD [] = [1, 2]) ∧
    ((mapGet memInit.testCaseFolders 2).getD [] = [3]) ∧
    (memInit.userId = 2) ∧
    (memInit.folderId = 4) ∧
    (memInit.test_case_id = 4) ∧
    (memInit.testStepId = 14) ∧
    (memInit.testCaseFolderId = 4) ∧
    (memInit.users ≠ []) ∧
    (memInit.folders ≠ []) ∧
    (memInit.testCases ≠ []) :=
  ⟨rfl, rfl, rfl, rfl, rfl, rfl, rfl, rfl, rfl, rfl, rfl, rfl, rfl, rfl, rfl,
   by decide, by decide, by decide⟩
